import Mathlib

/-
Verification of the tfprovider protocol adaptation layer: a shallow embedding of
the dynamic-value codec adapter, diagnostic model, attribute-path codec, schema
loader and the provider / resource-type client operations, with theorems about
the behaviour of each piece.  External collaborators (the cty value codec and
the RPC transport) are modelled as explicit parameters: a CtyCodec record of
oracle functions, and per-call RPC results passed in as Except values.
-/

/-- Raw wire bytes, modelled as a list of naturals. -/
abbrev Bytes := List Nat

/-- A Go error value, carrying only its message string. -/
structure GoError where
  message : String
  deriving DecidableEq, Repr

/-- Severity of a diagnostic; Error is the zero value, as in the Go source
where Error = iota = 0. -/
inductive DiagnosticSeverity : Type where
  | error
  | warning
  deriving DecidableEq, Repr

/-- One step of a cty path, as produced by the attribute-path decoder: an
attribute lookup, an index by string key, an index by integer key, or the nil
step the Go code appends for an unrecognized wire selector. -/
inductive CtyPathStep : Type where
  | getAttr (name : String)
  | indexString (key : String)
  | indexInt (key : Int)
  | nilStep
  deriving DecidableEq, Repr

/-- A cty path is a sequence of steps. -/
abbrev CtyPath := List CtyPathStep

/-- A single diagnostic message, mirroring common.Diagnostic with fields
Severity, Summary, Detail and Attribute. -/
structure Diagnostic where
  severity : DiagnosticSeverity
  summary : String
  detail : String
  attributePath : CtyPath := []
  deriving DecidableEq, Repr

/-- An ordered collection of diagnostics, mirroring common.Diagnostics. -/
abbrev Diagnostics := List Diagnostic

/-- Diagnostics.HasErrors: true iff any diagnostic has Error severity. -/
def Diagnostics.hasErrors (diags : Diagnostics) : Bool :=
  diags.any fun d =>
    match d.severity with
    | DiagnosticSeverity.error => true
    | DiagnosticSeverity.warning => false

/-- ErrorDiagnostics builds a single Error-severity diagnostic from an error,
appending the error text to the detail, as in common.ErrorDiagnostics. -/
def ErrorDiagnostics (summary detail : String) (err : GoError) : Diagnostics :=
  [{ severity := .error, summary := summary, detail := detail ++ ": " ++ err.message }]

/-- RPCErrorDiagnostics builds the transport-failure diagnostic for a failed
RPC, or nothing when the call succeeded, as in common.RPCErrorDiagnostics. -/
def RPCErrorDiagnostics : Option GoError → Diagnostics
  | none => []
  | some err =>
    [{ severity := .error, summary := "RPC communication error",
       detail := "Error while calling provider: " ++ err.message }]

/-- A cty type as seen by this layer: either the dynamic pseudo-type used as a
fallback, or an opaque parsed type. -/
inductive CtyType : Type where
  | dynamicPseudoType
  | named (code : Nat)
  deriving DecidableEq, Repr

/-- A cty value as seen by this layer: the DynamicVal placeholder, a null
value, or an opaque concrete value. -/
inductive CtyValue : Type where
  | dynamicVal
  | nullVal
  | val (payload : Nat)
  deriving DecidableEq, Repr

/-- IsNull on a modelled cty value. -/
def CtyValue.isNull : CtyValue → Bool
  | .nullVal => true
  | _ => false

/-- Nesting mode of a nested block in the internal schema model; unset is the
zero value left in place for unrecognized wire nesting codes. -/
inductive NestingMode : Type where
  | unset
  | single
  | group
  | list
  | set
  | map
  deriving DecidableEq, Repr

/-- Schema attribute, mirroring tfschema.Attribute. -/
structure Attribute where
  type : CtyType
  description : String
  required : Bool
  optional : Bool
  computed : Bool
  sensitive : Bool
  deriving DecidableEq, Repr

mutual

/-- Schema block, mirroring tfschema.Block: its Attributes and BlockTypes maps
are modelled as functions from names, matching Go map semantics. -/
inductive Block : Type where
  | mk (attributes : String → Option Attribute) (blockTypes : String → Option NestedBlock)

/-- Nested block, mirroring tfschema.NestedBlock: a nesting mode and a block. -/
inductive NestedBlock : Type where
  | mk (nesting : NestingMode) (content : Block)

end

/-- Attributes map of a block. -/
def Block.attributes : Block → String → Option Attribute
  | .mk attrs _ => attrs

/-- Nested block types map of a block. -/
def Block.blockTypes : Block → String → Option NestedBlock
  | .mk _ bts => bts

/-- Nesting mode of a nested block. -/
def NestedBlock.nesting : NestedBlock → NestingMode
  | .mk m _ => m

/-- Content block of a nested block. -/
def NestedBlock.content : NestedBlock → Block
  | .mk _ b => b

/-- Block with no attributes and no nested block types. -/
def emptyBlock : Block := Block.mk (fun _ => none) (fun _ => none)

/-- The external cty value codec, consumed as a black box: the implied type of
a block, msgpack marshalling of a value, and JSON / msgpack unmarshalling. -/
structure CtyCodec where
  impliedType : Block → CtyType
  msgpackMarshal : CtyValue → CtyType → Except GoError Bytes
  jsonUnmarshal : Bytes → CtyType → Except GoError CtyValue
  msgpackUnmarshal : Bytes → CtyType → Except GoError CtyValue

/-- Raw bytes and format of a dynamic value, mirroring common.DynamicValueData
with its JSON and Msgpack byte fields. -/
structure DynamicValueData where
  json : Bytes
  msgpack : Bytes
  deriving DecidableEq, Repr

/-- EncodeDynamicValue from common/encoding.go: asks for the implied type and
serializes the value into msgpack only; a marshal failure yields the Invalid
object diagnostic and the zero DynamicValueData. -/
def EncodeDynamicValue (codec : CtyCodec) (val : CtyValue) (schema : Block) :
    DynamicValueData × Diagnostics :=
  let ty := codec.impliedType schema
  match codec.msgpackMarshal val ty with
  | .error err =>
    (⟨[], []⟩, ErrorDiagnostics "Invalid object" "Value does not have the required type" err)
  | .ok raw => (⟨[], raw⟩, [])

/-- DecodeDynamicValue from common/encoding.go: the switch checks the JSON
bytes first, then the msgpack bytes, and otherwise reports the unsupported
response format; decode failures yield the DynamicVal placeholder. -/
def DecodeDynamicValue (codec : CtyCodec) (data : DynamicValueData) (schema : Block) :
    CtyValue × Diagnostics :=
  let ty := codec.impliedType schema
  if data.json.length > 0 then
    match codec.jsonUnmarshal data.json ty with
    | .error err =>
      (.dynamicVal, ErrorDiagnostics "Provider returned invalid object"
        "Provider's JSON response does not conform to the expected type" err)
    | .ok v => (v, [])
  else if data.msgpack.length > 0 then
    match codec.msgpackUnmarshal data.msgpack ty with
    | .error err =>
      (.dynamicVal, ErrorDiagnostics "Provider returned invalid object"
        "Provider's msgpack response does not conform to the expected type" err)
    | .ok v => (v, [])
  else
    (.dynamicVal,
      [{ severity := .error, summary := "Provider using unsupported response format",
         detail := "Provider's response is not in either JSON or msgpack format" }])

/-- Codec whose JSON and msgpack unmarshal results are distinguishable, used to
exhibit which branch DecodeDynamicValue takes when both byte fields are set. -/
def twoBranchCodec : CtyCodec where
  impliedType := fun _ => CtyType.named 0
  msgpackMarshal := fun _ _ => Except.ok []
  jsonUnmarshal := fun _ _ => Except.ok (CtyValue.val 1)
  msgpackUnmarshal := fun _ _ => Except.ok (CtyValue.val 2)

/-- C1 counterexample: a dynamic-value record with both byte fields populated
is decoded via the JSON unmarshaller, not the msgpack unmarshaller, so the
compact binary form is not preferred when both are present. -/
theorem c1_counterexample :
    DecodeDynamicValue twoBranchCodec ⟨[7], [7]⟩ emptyBlock = (CtyValue.val 1, []) ∧
    DecodeDynamicValue twoBranchCodec ⟨[7], [7]⟩ emptyBlock ≠ (CtyValue.val 2, []) := by
  exact ⟨rfl, by decide⟩

/-- C1 (amended): DecodeDynamicValue decodes the JSON bytes whenever they are
present, and decodes the msgpack bytes only when no JSON bytes are present;
when both byte fields are populated the JSON form is preferred. -/
theorem c1_decode_prefers_json (codec : CtyCodec) (data : DynamicValueData) (schema : Block) :
    (data.json ≠ [] →
      DecodeDynamicValue codec data schema =
        match codec.jsonUnmarshal data.json (codec.impliedType schema) with
        | .error err =>
          (.dynamicVal, ErrorDiagnostics "Provider returned invalid object"
            "Provider's JSON response does not conform to the expected type" err)
        | .ok v => (v, [])) ∧
    (data.json = [] → data.msgpack ≠ [] →
      DecodeDynamicValue codec data schema =
        match codec.msgpackUnmarshal data.msgpack (codec.impliedType schema) with
        | .error err =>
          (.dynamicVal, ErrorDiagnostics "Provider returned invalid object"
            "Provider's msgpack response does not conform to the expected type" err)
        | .ok v => (v, [])) := by
  constructor
  · intro h
    have hlen : 0 < data.json.length := List.length_pos.mpr h
    unfold DecodeDynamicValue
    rw [if_pos hlen]
  · intro hj hm
    have hjlen : ¬ 0 < data.json.length := by
      simp [hj]
    have hmlen : 0 < data.msgpack.length := List.length_pos.mpr hm
    unfold DecodeDynamicValue
    rw [if_neg hjlen, if_pos hmlen]

/-- C1 witness: the amended preference rule evaluated on concrete inputs, one
with only JSON bytes and one with only msgpack bytes. -/
theorem c1_decode_prefers_json_witness :
    (([7] : Bytes) ≠ [] ∧
      DecodeDynamicValue twoBranchCodec ⟨[7], []⟩ emptyBlock = (CtyValue.val 1, [])) ∧
    (([] : Bytes) = [] ∧ ([7] : Bytes) ≠ [] ∧
      DecodeDynamicValue twoBranchCodec ⟨[], [7]⟩ emptyBlock = (CtyValue.val 2, [])) := by
  refine ⟨⟨by decide, ?_⟩, ⟨rfl, by decide, ?_⟩⟩
  · exact (c1_decode_prefers_json twoBranchCodec ⟨[7], []⟩ emptyBlock).1 (by decide)
  · exact (c1_decode_prefers_json twoBranchCodec ⟨[], [7]⟩ emptyBlock).2 rfl (by decide)

/-- C7: a DecodeDynamicValue call whose input has neither JSON nor msgpack
bytes populated returns the DynamicVal placeholder together with exactly one
diagnostic, of Error severity, reporting the unsupported response format; the
function is total, so no uncontrolled failure escapes. -/
theorem c7_unsupported_format (codec : CtyCodec) (schema : Block) :
    DecodeDynamicValue codec ⟨[], []⟩ schema =
      (CtyValue.dynamicVal,
        [{ severity := .error, summary := "Provider using unsupported response format",
           detail := "Provider's response is not in either JSON or msgpack format",
           attributePath := [] }]) ∧
    (DecodeDynamicValue codec ⟨[], []⟩ schema).2.length = 1 ∧
    Diagnostics.hasErrors (DecodeDynamicValue codec ⟨[], []⟩ schema).2 = true := by
  exact ⟨rfl, rfl, rfl⟩

/-- One wire attribute-path step, mirroring the oneof selector of
tfplugin AttributePath.Step; unknownStep stands for any selector shape the
decoder does not recognize (including an unset one). -/
inductive WireAttributePathStep : Type where
  | attributeName (s : String)
  | elementKeyString (s : String)
  | elementKeyInt (i : Int)
  | unknownStep
  deriving DecidableEq, Repr

/-- A wire attribute path: a sequence of steps, mirroring
tfplugin AttributePath. -/
structure WireAttributePath where
  steps : List WireAttributePathStep
  deriving DecidableEq, Repr

/-- Decoding of one wire step, as in the loop body of decodeAttributePath:
an attribute-name step becomes a GetAttr step, a string key an index by
string, an integer key an index by number, and anything else the appended
nil step. -/
def decodeAttributePathStep : WireAttributePathStep → CtyPathStep
  | .attributeName s => .getAttr s
  | .elementKeyString s => .indexString s
  | .elementKeyInt i => .indexInt i
  | .unknownStep => .nilStep

/-- Loop of decodeAttributePath, building the path step by step in order. -/
def decodeAttributePathSteps : List WireAttributePathStep → CtyPath
  | [] => []
  | raw :: rest => decodeAttributePathStep raw :: decodeAttributePathSteps rest

/-- decodeAttributePath from the protocol adapters: a nil or empty wire step
sequence decodes to the nil path, and otherwise each step is decoded
independently, in order. -/
def decodeAttributePath : Option WireAttributePath → CtyPath
  | none => []
  | some raws =>
    if raws.steps.length = 0 then []
    else decodeAttributePathSteps raws.steps

/-- Unfolding of the step loop as a map over the wire steps. -/
theorem decodeAttributePathSteps_eq_map (steps : List WireAttributePathStep) :
    decodeAttributePathSteps steps = steps.map decodeAttributePathStep := by
  induction steps with
  | nil => rfl
  | cons raw rest ih => simp [decodeAttributePathSteps, ih]

/-- Decoding a wire path always yields the map of the step decoder over the
wire steps, also when the sequence is absent or empty. -/
theorem decodeAttributePath_eq_map (raws : Option WireAttributePath) :
    decodeAttributePath raws =
      (match raws with
       | none => []
       | some p => p.steps.map decodeAttributePathStep) := by
  match raws with
  | none => rfl
  | some p =>
    by_cases h : p.steps.length = 0
    · have : p.steps = [] := List.length_eq_zero.mp h
      simp [decodeAttributePath, h, this]
    · simp [decodeAttributePath, h, decodeAttributePathSteps_eq_map]

/-- C8: the attribute-path decoder is total by construction; an absent or
empty wire sequence decodes to the empty path; each step decodes independently
and in order, preserving the path length, with attribute-name steps becoming
attribute steps, string keys string indexes, integer keys integer indexes, and
unrecognized steps the placeholder nil entry; in particular the two wire paths
from the spec example decode to an attribute-named step and an integer-indexed
step respectively. -/
theorem c8_attribute_path_decoder_total :
    decodeAttributePath none = [] ∧
    decodeAttributePath (some ⟨[]⟩) = [] ∧
    (∀ steps : List WireAttributePathStep,
      (decodeAttributePath (some ⟨steps⟩)).length = steps.length) ∧
    (∀ steps : List WireAttributePathStep, ∀ i : Nat,
      (decodeAttributePath (some ⟨steps⟩))[i]? =
        (steps[i]?).map decodeAttributePathStep) ∧
    (∀ s, decodeAttributePathStep (.attributeName s) = .getAttr s) ∧
    (∀ s, decodeAttributePathStep (.elementKeyString s) = .indexString s) ∧
    (∀ i, decodeAttributePathStep (.elementKeyInt i) = .indexInt i) ∧
    decodeAttributePathStep .unknownStep = .nilStep ∧
    decodeAttributePath (some ⟨[.attributeName "id"]⟩) = [.getAttr "id"] ∧
    decodeAttributePath (some ⟨[.elementKeyInt 0]⟩) = [.indexInt 0] := by
  refine ⟨rfl, rfl, ?_, ?_, fun _ => rfl, fun _ => rfl, fun _ => rfl, rfl, rfl, rfl⟩
  · intro steps
    rw [decodeAttributePath_eq_map]
    simp
  · intro steps i
    rw [decodeAttributePath_eq_map]
    simp

/-- One wire diagnostic, mirroring tfplugin Diagnostic with its severity enum
(the unknown constructor stands for any unrecognized enum value). -/
inductive WireSeverity : Type where
  | err
  | warn
  | unknown
  deriving DecidableEq, Repr

/-- Wire diagnostic record. -/
structure WireDiagnostic where
  severity : WireSeverity
  summary : String
  detail : String
  attributePath : Option WireAttributePath
  deriving DecidableEq, Repr

/-- Decoding of one wire diagnostic, as in the loop of decodeDiagnostics: the
zero-valued severity (Error) is kept unless the wire severity is a recognized
ERROR or WARNING value. -/
def decodeDiagnostic (raw : WireDiagnostic) : Diagnostic :=
  { summary := raw.summary
    detail := raw.detail
    attributePath := decodeAttributePath raw.attributePath
    severity :=
      match raw.severity with
      | .err => .error
      | .warn => .warning
      | .unknown => .error }

/-- decodeDiagnostics from the protocol adapters: nil for an empty wire list,
otherwise the per-entry decoding in order. -/
def decodeDiagnostics (raws : List WireDiagnostic) : Diagnostics :=
  raws.map decodeDiagnostic

/-- One wire schema attribute, mirroring tfplugin Schema.Attribute; the type
field holds the JSON type encoding bytes. -/
structure WireAttribute where
  name : String
  type : Bytes
  description : String
  required : Bool
  optional : Bool
  computed : Bool
  sensitive : Bool
  deriving DecidableEq, Repr

/-- Wire nesting-mode enum of tfplugin Schema.NestedBlock; unrecognized stands
for any value outside the five named constants. -/
inductive WireNestingMode : Type where
  | single
  | group
  | list
  | set
  | map
  | unrecognized
  deriving DecidableEq, Repr

mutual

/-- Wire schema block, mirroring a possibly-nil pointer to
tfplugin Schema.Block: nilBlock is the nil pointer, and mk carries the
attribute list and the nested block-type list. -/
inductive WireSchemaBlock : Type where
  | nilBlock
  | mk (attributes : List WireAttribute) (blockTypes : WireNestedBlocks)

/-- List of wire nested blocks, mirroring tfplugin Schema.NestedBlock entries:
each carries its type name, its nesting mode and its content block. -/
inductive WireNestedBlocks : Type where
  | nil
  | cons (typeName : String) (nesting : WireNestingMode) (content : WireSchemaBlock)
      (rest : WireNestedBlocks)

end

/-- Switch over the wire nesting mode in decodeProviderSchemaBlock: the five
named constants map one to one, and anything else leaves the zero-valued
mode. -/
def decodeNestingMode : WireNestingMode → NestingMode
  | .single => .single
  | .group => .group
  | .list => .list
  | .set => .set
  | .map => .map
  | .unrecognized => .unset

/-- Decoding of one wire attribute in decodeProviderSchemaBlock, parameterized
by the external ctyjson.UnmarshalType function: a type encoding that fails to
parse is replaced by the dynamic pseudo-type. -/
def decodeWireAttribute (unmarshalType : Bytes → Except GoError CtyType)
    (rawAttr : WireAttribute) : Attribute :=
  { type :=
      match unmarshalType rawAttr.type with
      | .error _ => CtyType.dynamicPseudoType
      | .ok ty => ty
    description := rawAttr.description
    required := rawAttr.required
    optional := rawAttr.optional
    computed := rawAttr.computed
    sensitive := rawAttr.sensitive }

/-- Attributes map built by the first loop of decodeProviderSchemaBlock; a
later entry with the same name overwrites an earlier one, as for a Go map
written in iteration order. -/
def buildAttributesMap (unmarshalType : Bytes → Except GoError CtyType) :
    List WireAttribute → String → Option Attribute
  | [], _ => none
  | rawAttr :: rest, s =>
    match buildAttributesMap unmarshalType rest s with
    | some found => some found
    | none =>
      if s = rawAttr.name then some (decodeWireAttribute unmarshalType rawAttr) else none

mutual

/-- decodeProviderSchemaBlock from the schema loader: a nil wire block decodes
to the empty block, and otherwise the attribute and nested-block maps are
built entry by entry. -/
def decodeProviderSchemaBlock (unmarshalType : Bytes → Except GoError CtyType) :
    WireSchemaBlock → Block
  | .nilBlock => Block.mk (fun _ => none) (fun _ => none)
  | .mk attrs blockTypes =>
    Block.mk (buildAttributesMap unmarshalType attrs)
      (buildBlockTypesMap unmarshalType blockTypes)

/-- BlockTypes map built by the second loop of decodeProviderSchemaBlock, with
the nested content decoded recursively; a later entry with the same type name
overwrites an earlier one. -/
def buildBlockTypesMap (unmarshalType : Bytes → Except GoError CtyType) :
    WireNestedBlocks → String → Option NestedBlock
  | .nil, _ => none
  | .cons typeName nesting content rest, s =>
    match buildBlockTypesMap unmarshalType rest s with
    | some found => some found
    | none =>
      if s = typeName then
        some (NestedBlock.mk (decodeNestingMode nesting)
          (decodeProviderSchemaBlock unmarshalType content))
      else none

end

/-- Last wire attribute with a given name, matching the Go map overwrite
semantics of the attribute loop. -/
def lastWireAttribute : List WireAttribute → String → Option WireAttribute
  | [], _ => none
  | rawAttr :: rest, s =>
    match lastWireAttribute rest s with
    | some found => some found
    | none => if s = rawAttr.name then some rawAttr else none

/-- Last wire nested block with a given type name, matching the Go map
overwrite semantics of the block-type loop. -/
def lastWireNestedBlock : WireNestedBlocks → String → Option (WireNestingMode × WireSchemaBlock)
  | .nil, _ => none
  | .cons typeName nesting content rest, s =>
    match lastWireNestedBlock rest s with
    | some found => some found
    | none => if s = typeName then some (nesting, content) else none

/-- Attribute-map characterization: the built map holds, for every name, the
decoding of the last wire attribute with that name. -/
theorem buildAttributesMap_eq (unmarshalType : Bytes → Except GoError CtyType)
    (attrs : List WireAttribute) (s : String) :
    buildAttributesMap unmarshalType attrs s =
      (lastWireAttribute attrs s).map (decodeWireAttribute unmarshalType) := by
  induction attrs with
  | nil => rfl
  | cons rawAttr rest ih =>
    simp only [buildAttributesMap, lastWireAttribute, ih]
    cases lastWireAttribute rest s with
    | some found => rfl
    | none =>
      by_cases h : s = rawAttr.name <;> simp [h]

/-- BlockTypes-map characterization: the built map holds, for every type name,
the decoding of the last wire nested block with that name. -/
theorem buildBlockTypesMap_eq (unmarshalType : Bytes → Except GoError CtyType) :
    ∀ (blockTypes : WireNestedBlocks) (s : String),
      buildBlockTypesMap unmarshalType blockTypes s =
        (lastWireNestedBlock blockTypes s).map fun found =>
          NestedBlock.mk (decodeNestingMode found.1)
            (decodeProviderSchemaBlock unmarshalType found.2)
  | .nil, _ => rfl
  | .cons typeName nesting content rest, s => by
    have ih := buildBlockTypesMap_eq unmarshalType rest s
    simp only [buildBlockTypesMap, lastWireNestedBlock, ih]
    cases lastWireNestedBlock rest s with
    | some found => rfl
    | none =>
      by_cases h : s = typeName <;> simp [h]

/-- C9: the schema-block decoder is total, so a malformed attribute type never
fails the schema load; every wire attribute is kept in the resulting block
(keyed by name, with Go map overwrite semantics) with the dynamic pseudo-type
substituted exactly when its type encoding fails to parse and the parsed type
kept otherwise; and every nested block type is kept and decoded recursively,
so one bad attribute drops neither the other attributes nor the nested
blocks. -/
theorem c9_schema_loader_robust (unmarshalType : Bytes → Except GoError CtyType)
    (attrs : List WireAttribute) (blockTypes : WireNestedBlocks) :
    (∀ s, (decodeProviderSchemaBlock unmarshalType (.mk attrs blockTypes)).attributes s =
      (lastWireAttribute attrs s).map (decodeWireAttribute unmarshalType)) ∧
    (∀ rawAttr : WireAttribute, ∀ err : GoError,
      unmarshalType rawAttr.type = .error err →
      (decodeWireAttribute unmarshalType rawAttr).type = CtyType.dynamicPseudoType) ∧
    (∀ rawAttr : WireAttribute, ∀ ty : CtyType,
      unmarshalType rawAttr.type = .ok ty →
      (decodeWireAttribute unmarshalType rawAttr).type = ty) ∧
    (∀ s, (decodeProviderSchemaBlock unmarshalType (.mk attrs blockTypes)).blockTypes s =
      (lastWireNestedBlock blockTypes s).map fun found =>
        NestedBlock.mk (decodeNestingMode found.1)
          (decodeProviderSchemaBlock unmarshalType found.2)) := by
  refine ⟨?_, ?_, ?_, ?_⟩
  · intro s
    rw [decodeProviderSchemaBlock]
    exact buildAttributesMap_eq unmarshalType attrs s
  · intro rawAttr err h
    simp [decodeWireAttribute, h]
  · intro rawAttr ty h
    simp [decodeWireAttribute, h]
  · intro s
    rw [decodeProviderSchemaBlock]
    exact buildBlockTypesMap_eq unmarshalType blockTypes s

/-- Type parser used in the C9 witness: the single byte 1 parses, anything
else fails. -/
def onlyByteOneType : Bytes → Except GoError CtyType
  | [1] => Except.ok (CtyType.named 1)
  | _ => Except.error ⟨"invalid type encoding"⟩

/-- Wire attribute with a well-formed type encoding, for the C9 witness. -/
def goodWireAttribute : WireAttribute :=
  { name := "good", type := [1], description := "", required := true,
    optional := false, computed := false, sensitive := false }

/-- Wire attribute with a malformed type encoding, for the C9 witness. -/
def badWireAttribute : WireAttribute :=
  { name := "bad", type := [9], description := "", required := false,
    optional := true, computed := false, sensitive := false }

/-- C9 witness: a block with one malformed-type attribute, one well-formed
attribute and one nested block decodes to a block that keeps all three, with
the dynamic pseudo-type substituted only on the malformed one. -/
theorem c9_schema_loader_robust_witness :
    (decodeProviderSchemaBlock onlyByteOneType
        (.mk [badWireAttribute, goodWireAttribute]
          (.cons "child" .list .nilBlock .nil))).attributes "bad" =
      some (decodeWireAttribute onlyByteOneType badWireAttribute) ∧
    onlyByteOneType badWireAttribute.type = .error ⟨"invalid type encoding"⟩ ∧
    (decodeWireAttribute onlyByteOneType badWireAttribute).type = CtyType.dynamicPseudoType ∧
    onlyByteOneType goodWireAttribute.type = .ok (CtyType.named 1) ∧
    (decodeWireAttribute onlyByteOneType goodWireAttribute).type = CtyType.named 1 ∧
    (decodeProviderSchemaBlock onlyByteOneType
        (.mk [badWireAttribute, goodWireAttribute]
          (.cons "child" .list .nilBlock .nil))).blockTypes "child" =
      some (NestedBlock.mk NestingMode.list
        (decodeProviderSchemaBlock onlyByteOneType .nilBlock)) := by
  have h := c9_schema_loader_robust onlyByteOneType [badWireAttribute, goodWireAttribute]
    (.cons "child" .list .nilBlock .nil)
  refine ⟨?_, rfl, h.2.1 badWireAttribute ⟨"invalid type encoding"⟩ rfl, rfl,
    h.2.2.1 goodWireAttribute (CtyType.named 1) rfl, ?_⟩
  · rw [h.1 "bad"]
    rfl
  · rw [h.2.2.2 "child"]
    rfl

/-- Schema of one managed resource type: schema version and content block. -/
structure ManagedResourceTypeSchema where
  version : Int
  content : Block

/-- Schema of one data resource type: content block. -/
structure DataResourceTypeSchema where
  content : Block

/-- Loaded provider schema, mirroring common.Schema; the two per-type maps are
modelled as functions from type names, matching Go map semantics. -/
structure Schema where
  providerConfig : Block
  providerMeta : Block
  managedResourceTypes : String → Option ManagedResourceTypeSchema
  dataResourceTypes : String → Option DataResourceTypeSchema

/-- Mutable state of a provider client: its configured flag and its loaded
schema (the schema is read-only after construction). -/
structure ProviderState where
  configured : Bool
  schema : Schema

/-- Wire form of a dynamic value, mirroring tfplugin DynamicValue with its
Json and Msgpack byte fields. -/
structure WireDynamicValue where
  json : Bytes
  msgpack : Bytes
  deriving DecidableEq, Repr

/-- Protocol-level encodeDynamicValue wrapper: on encode errors it returns no
wire value together with the diagnostics, otherwise the wire record and no
diagnostics. -/
def encodeDynamicValueWire (codec : CtyCodec) (val : CtyValue) (schema : Block) :
    Option WireDynamicValue × Diagnostics :=
  let (data, diags) := EncodeDynamicValue codec val schema
  if diags.hasErrors then (none, diags)
  else (some ⟨data.json, data.msgpack⟩, [])

/-- Protocol-level decodeDynamicValue wrapper: repackages the wire bytes as
DynamicValueData and decodes them. -/
def decodeDynamicValueWire (codec : CtyCodec) (raw : WireDynamicValue) (schema : Block) :
    CtyValue × Diagnostics :=
  DecodeDynamicValue codec ⟨raw.json, raw.msgpack⟩ schema

/-- Wire response of the remote configure call: only its diagnostics matter to
this layer. -/
structure WireConfigureResponse where
  diagnostics : List WireDiagnostic
  deriving DecidableEq, Repr

/-- Diagnostics returned by Configure when the provider was already
configured. -/
def alreadyConfiguredDiagnostics : Diagnostics :=
  [{ severity := .error, summary := "Provider already configured",
     detail := "This operation requires an unconfigured provider, but this provider was already configured." }]

/-- Configure of the mutex-guarded providers: under the lock, an already
configured provider fails immediately; otherwise the config is encoded
(short-circuiting on error), the remote configure RPC is issued, its
diagnostics are merged, and only when no error is present does the state
advance to configured.  The rpc argument is the outcome the transport would
produce, and the returned Bool records whether the RPC was issued. -/
def ConfigureWithMutex (codec : CtyCodec) (rpc : Except GoError WireConfigureResponse)
    (st : ProviderState) (config : CtyValue) : Diagnostics × ProviderState × Bool :=
  if st.configured then (alreadyConfiguredDiagnostics, st, false)
  else
    let (_, diags) := encodeDynamicValueWire codec config st.schema.providerConfig
    if diags.hasErrors then (diags, st, false)
    else
      match rpc with
      | .error err => (diags ++ RPCErrorDiagnostics (some err), st, true)
      | .ok resp =>
        let diags := diags ++ decodeDiagnostics resp.diagnostics
        if diags.hasErrors then (diags, st, true)
        else (diags, { st with configured := true }, true)

/-- Configure of the atomic-swap provider variant: the configured flag is
swapped to true up front; a previously configured provider fails immediately;
otherwise the config is encoded and the RPC issued as above, and the flag is
stored back to false only when the merged remote diagnostics contain an
error.  On the encode-failure and RPC-failure paths the flag is left as the
swap set it. -/
def ConfigureWithAtomicSwap (codec : CtyCodec) (rpc : Except GoError WireConfigureResponse)
    (st : ProviderState) (config : CtyValue) : Diagnostics × ProviderState × Bool :=
  let previouslyConfigured := st.configured
  let st1 : ProviderState := { st with configured := true }
  if previouslyConfigured then (alreadyConfiguredDiagnostics, st1, false)
  else
    let (_, diags) := encodeDynamicValueWire codec config st1.schema.providerConfig
    if diags.hasErrors then (diags, st1, false)
    else
      match rpc with
      | .error err => (diags ++ RPCErrorDiagnostics (some err), st1, true)
      | .ok resp =>
        let diags := diags ++ decodeDiagnostics resp.diagnostics
        if diags.hasErrors then (diags, { st1 with configured := false }, true)
        else (diags, st1, true)

/-- Provider schema with no resource types, used for concrete evaluations. -/
def emptySchema : Schema :=
  { providerConfig := emptyBlock, providerMeta := emptyBlock,
    managedResourceTypes := fun _ => none, dataResourceTypes := fun _ => none }

/-- Unconfigured provider state over the empty schema. -/
def unconfiguredState : ProviderState := { configured := false, schema := emptySchema }

/-- Configured provider state over the empty schema. -/
def configuredEmptyState : ProviderState := { configured := true, schema := emptySchema }

/-- Codec whose msgpack marshalling always fails, standing for a config value
that does not conform to the provider schema. -/
def failingMarshalCodec : CtyCodec where
  impliedType := fun _ => CtyType.named 0
  msgpackMarshal := fun _ _ => Except.error ⟨"attribute value does not conform"⟩
  jsonUnmarshal := fun _ _ => Except.ok CtyValue.dynamicVal
  msgpackUnmarshal := fun _ _ => Except.ok CtyValue.dynamicVal

/-- Codec whose operations all succeed. -/
def okCodec : CtyCodec where
  impliedType := fun _ => CtyType.named 0
  msgpackMarshal := fun _ _ => Except.ok [0]
  jsonUnmarshal := fun _ _ => Except.ok (CtyValue.val 0)
  msgpackUnmarshal := fun _ _ => Except.ok (CtyValue.val 0)

/-- State left behind by an atomic-swap Configure whose config failed to
encode. -/
def stateAfterFailedEncodeConfigure : ProviderState :=
  (ConfigureWithAtomicSwap failingMarshalCodec (Except.ok ⟨[]⟩) unconfiguredState
    (CtyValue.val 0)).2.1

/-- State left behind by an atomic-swap Configure whose RPC failed. -/
def stateAfterFailedRpcConfigure : ProviderState :=
  (ConfigureWithAtomicSwap okCodec (Except.error ⟨"connection refused"⟩) unconfiguredState
    (CtyValue.val 0)).2.1

/-- C2: in the atomic-swap Configure variant, a Configure call on an
unconfigured provider whose config fails to encode, or whose RPC fails,
returns error diagnostics yet leaves the configured flag set, so a subsequent
Configure call with a valid config fails with the already-configured
diagnostic instead of succeeding; the state does not remain (nor is it reset
to) unconfigured as it must. -/
theorem c2_atomic_configure_not_reset_on_failure :
    Diagnostics.hasErrors
      (ConfigureWithAtomicSwap failingMarshalCodec (Except.ok ⟨[]⟩) unconfiguredState
        (CtyValue.val 0)).1 = true ∧
    stateAfterFailedEncodeConfigure.configured = true ∧
    (ConfigureWithAtomicSwap okCodec (Except.ok ⟨[]⟩) stateAfterFailedEncodeConfigure
      (CtyValue.val 0)).1 = alreadyConfiguredDiagnostics ∧
    Diagnostics.hasErrors
      (ConfigureWithAtomicSwap okCodec (Except.error ⟨"connection refused"⟩) unconfiguredState
        (CtyValue.val 0)).1 = true ∧
    stateAfterFailedRpcConfigure.configured = true ∧
    (ConfigureWithAtomicSwap okCodec (Except.ok ⟨[]⟩) stateAfterFailedRpcConfigure
      (CtyValue.val 0)).1 = alreadyConfiguredDiagnostics := by
  exact ⟨rfl, rfl, rfl, rfl, rfl, rfl⟩

/-- Mutex-guarded Configure satisfies the reset-on-failure requirement: when
the provider is unconfigured and the call returns error diagnostics, the state
is still unconfigured. -/
theorem configureWithMutex_failure_keeps_unconfigured (codec : CtyCodec)
    (rpc : Except GoError WireConfigureResponse) (st : ProviderState) (config : CtyValue)
    (h : st.configured = false)
    (herr : Diagnostics.hasErrors (ConfigureWithMutex codec rpc st config).1 = true) :
    ((ConfigureWithMutex codec rpc st config).2.1).configured = false := by
  by_cases henc :
      Diagnostics.hasErrors (encodeDynamicValueWire codec config st.schema.providerConfig).2 = true
  · simp [ConfigureWithMutex, h, henc]
  · cases rpc with
    | error err => simp [ConfigureWithMutex, h, henc]
    | ok resp =>
      by_cases hrem :
          Diagnostics.hasErrors
            ((encodeDynamicValueWire codec config st.schema.providerConfig).2 ++
              decodeDiagnostics resp.diagnostics) = true
      · simp [ConfigureWithMutex, h, henc, hrem]
      · exfalso
        rw [ConfigureWithMutex] at herr
        simp [h, henc, hrem] at herr
/-- C5: a Configure call made when the provider is already configured fails
immediately with the already-configured error diagnostic, performs no RPC, and
leaves the state configured, in both the mutex-guarded and the atomic-swap
implementations. -/
theorem c5_configure_when_already_configured (codec : CtyCodec)
    (rpc : Except GoError WireConfigureResponse) (st : ProviderState) (config : CtyValue)
    (h : st.configured = true) :
    ConfigureWithMutex codec rpc st config = (alreadyConfiguredDiagnostics, st, false) ∧
    ConfigureWithAtomicSwap codec rpc st config = (alreadyConfiguredDiagnostics, st, false) := by
  obtain ⟨c, sch⟩ := st
  have hc : c = true := h
  subst hc
  exact ⟨rfl, rfl⟩

/-- C5 witness: the already-configured short-circuit evaluated on a concrete
configured state. -/
theorem c5_configure_when_already_configured_witness :
    configuredEmptyState.configured = true ∧
    ConfigureWithMutex okCodec (Except.ok ⟨[]⟩) configuredEmptyState (CtyValue.val 0) =
      (alreadyConfiguredDiagnostics, configuredEmptyState, false) ∧
    ConfigureWithAtomicSwap okCodec (Except.ok ⟨[]⟩) configuredEmptyState (CtyValue.val 0) =
      (alreadyConfiguredDiagnostics, configuredEmptyState, false) := by
  have h := c5_configure_when_already_configured okCodec (Except.ok ⟨[]⟩) configuredEmptyState
    (CtyValue.val 0) rfl
  exact ⟨rfl, h.1, h.2⟩

/-- Go %q formatting of a simple name: the name wrapped in double quotes. -/
def goQuote (s : String) : String := "\"" ++ s ++ "\""

/-- Client for one managed resource type: the immutable binding of type name,
that type's schema and the provider-meta schema (a nil pointer in Go is
none). -/
structure ManagedResourceTypeClient where
  typeName : String
  schema : ManagedResourceTypeSchema
  providerMetaSchema : Option Block

/-- Client for one data resource type. -/
structure DataResourceTypeClient where
  typeName : String
  schema : DataResourceTypeSchema
  providerMetaSchema : Option Block

/-- ManagedResourceType of the atomic-swap provider variant: an unconfigured
provider yields the not-configured error, an unknown type name the not-found
error, and otherwise a client bound to that type's schema and the
provider-meta schema; no RPC is involved. -/
def ManagedResourceTypeAtomic (st : ProviderState) (typeName : String) :
    Except String ManagedResourceTypeClient :=
  if !st.configured then Except.error "provider not configured"
  else
    match st.schema.managedResourceTypes typeName with
    | none => Except.error ("managed resource type " ++ goQuote typeName ++ " not found")
    | some schema =>
      Except.ok { typeName := typeName, schema := schema,
                  providerMetaSchema := some st.schema.providerMeta }

/-- DataResourceType of the atomic-swap provider variant. -/
def DataResourceTypeAtomic (st : ProviderState) (typeName : String) :
    Except String DataResourceTypeClient :=
  if !st.configured then Except.error "provider not configured"
  else
    match st.schema.dataResourceTypes typeName with
    | none => Except.error ("data resource type " ++ goQuote typeName ++ " not found")
    | some schema =>
      Except.ok { typeName := typeName, schema := schema,
                  providerMetaSchema := some st.schema.providerMeta }

/-- ManagedResourceType of the mutex-guarded protocol5 provider: it returns a
nil client both when the provider is unconfigured and when the type name is
unknown, with no error value distinguishing the two, and sets no
provider-meta schema on the client it builds. -/
def ManagedResourceTypeMutex (st : ProviderState) (typeName : String) :
    Option ManagedResourceTypeClient :=
  if !st.configured then none
  else
    match st.schema.managedResourceTypes typeName with
    | none => none
    | some schema =>
      some { typeName := typeName, schema := schema, providerMetaSchema := none }

/-- Schema holding one managed resource type named examplething. -/
def oneTypeSchema : Schema :=
  { providerConfig := emptyBlock, providerMeta := emptyBlock,
    managedResourceTypes := fun s =>
      if s = "examplething" then some ⟨0, emptyBlock⟩ else none,
    dataResourceTypes := fun s =>
      if s = "exampledata" then some ⟨emptyBlock⟩ else none }

/-- C4 counterexample: in the mutex-guarded implementation a call before
Configure and a call after Configure with an absent name both return the same
nil client, so the call does not fail with a distinguishable not-configured
condition versus type-not-found condition as the claim states. -/
theorem c4_counterexample :
    ManagedResourceTypeMutex ⟨false, oneTypeSchema⟩ "examplething" = none ∧
    ManagedResourceTypeMutex ⟨true, oneTypeSchema⟩ "absent" = none ∧
    ManagedResourceTypeMutex ⟨false, oneTypeSchema⟩ "examplething" =
      ManagedResourceTypeMutex ⟨true, oneTypeSchema⟩ "absent" := by
  refine ⟨rfl, ?_, ?_⟩ <;> simp [ManagedResourceTypeMutex, oneTypeSchema, Schema.managedResourceTypes]

/-- C4 (amended): in the atomic-swap implementation, ManagedResourceType and
DataResourceType before any successful Configure fail with the
provider-not-configured error and perform no RPC; after Configure an absent
name fails with the not-found error and a present name returns a new stateless
client bound to that type's schema.  The mutex-guarded protocol5
implementation instead signals both failure cases by returning a nil client,
without a distinguishing condition, and also performs no RPC. -/
theorem c4_resource_type_lookup (st : ProviderState) (typeName : String) :
    (st.configured = false →
      ManagedResourceTypeAtomic st typeName = .error "provider not configured" ∧
      DataResourceTypeAtomic st typeName = .error "provider not configured" ∧
      ManagedResourceTypeMutex st typeName = none) ∧
    (st.configured = true →
      (st.schema.managedResourceTypes typeName = none →
        ManagedResourceTypeAtomic st typeName =
          .error ("managed resource type " ++ goQuote typeName ++ " not found") ∧
        ManagedResourceTypeMutex st typeName = none) ∧
      (∀ schema, st.schema.managedResourceTypes typeName = some schema →
        ManagedResourceTypeAtomic st typeName =
          .ok { typeName := typeName, schema := schema,
                providerMetaSchema := some st.schema.providerMeta } ∧
        ManagedResourceTypeMutex st typeName =
          some { typeName := typeName, schema := schema, providerMetaSchema := none }) ∧
      (st.schema.dataResourceTypes typeName = none →
        DataResourceTypeAtomic st typeName =
          .error ("data resource type " ++ goQuote typeName ++ " not found")) ∧
      (∀ schema, st.schema.dataResourceTypes typeName = some schema →
        DataResourceTypeAtomic st typeName =
          .ok { typeName := typeName, schema := schema,
                providerMetaSchema := some st.schema.providerMeta })) := by
  constructor
  · intro h
    refine ⟨?_, ?_, ?_⟩ <;>
      simp [ManagedResourceTypeAtomic, DataResourceTypeAtomic, ManagedResourceTypeMutex, h]
  · intro h
    refine ⟨?_, ?_, ?_, ?_⟩
    · intro hnone
      constructor <;>
        simp [ManagedResourceTypeAtomic, ManagedResourceTypeMutex, h, hnone]
    · intro schema hsome
      constructor <;>
        simp [ManagedResourceTypeAtomic, ManagedResourceTypeMutex, h, hsome]
    · intro hnone
      simp [DataResourceTypeAtomic, h, hnone]
    · intro schema hsome
      simp [DataResourceTypeAtomic, h, hsome]

/-- C4 witness: the lookup behaviour evaluated on concrete states over a
schema with one managed type, before and after configuration. -/
theorem c4_resource_type_lookup_witness :
    ((⟨false, oneTypeSchema⟩ : ProviderState).configured = false ∧
      ManagedResourceTypeAtomic ⟨false, oneTypeSchema⟩ "examplething" =
        .error "provider not configured") ∧
    ((⟨true, oneTypeSchema⟩ : ProviderState).configured = true ∧
      oneTypeSchema.managedResourceTypes "absent" = none ∧
      ManagedResourceTypeAtomic ⟨true, oneTypeSchema⟩ "absent" =
        .error ("managed resource type " ++ goQuote "absent" ++ " not found") ∧
      oneTypeSchema.managedResourceTypes "examplething" = some ⟨0, emptyBlock⟩ ∧
      ManagedResourceTypeAtomic ⟨true, oneTypeSchema⟩ "examplething" =
        .ok { typeName := "examplething", schema := ⟨0, emptyBlock⟩,
              providerMetaSchema := some oneTypeSchema.providerMeta }) := by
  have habsent : oneTypeSchema.managedResourceTypes "absent" = none := by
    simp [oneTypeSchema]
  have hpresent : oneTypeSchema.managedResourceTypes "examplething" = some ⟨0, emptyBlock⟩ := by
    simp [oneTypeSchema]
  refine ⟨⟨rfl, ?_⟩, rfl, habsent, ?_, hpresent, ?_⟩
  · exact ((c4_resource_type_lookup ⟨false, oneTypeSchema⟩ "examplething").1 rfl).1
  · exact (((c4_resource_type_lookup ⟨true, oneTypeSchema⟩ "absent").2 rfl).1 habsent).1
  · exact ((((c4_resource_type_lookup ⟨true, oneTypeSchema⟩ "examplething").2 rfl).2.1
      ⟨0, emptyBlock⟩ hpresent)).1

/-- External interaction performed by a Plan call, recorded in order: one of
the four encode attempts or the RPC itself.  The trace makes the
short-circuit behaviour (which steps were reached) observable. -/
inductive PlanInteraction : Type where
  | encodePrior
  | encodeProposed
  | encodeConfig
  | encodeProviderMeta
  | rpcCall
  deriving DecidableEq, Repr

/-- Request of a managed-resource Plan call, mirroring
common.ManagedResourcePlanRequest. -/
structure ManagedResourcePlanRequest where
  priorState : CtyValue
  proposedNewState : CtyValue
  config : CtyValue
  providerMeta : CtyValue
  opaquePrivate : Bytes

/-- Response of a managed-resource Plan call; the planned state is none when
the wire response carried no planned-state payload. -/
structure ManagedResourcePlanResponse where
  plannedState : Option CtyValue
  requiresReplace : List CtyPath
  opaquePrivate : Bytes

/-- Zero value of the Plan response. -/
def emptyPlanResponse : ManagedResourcePlanResponse :=
  { plannedState := none, requiresReplace := [], opaquePrivate := [] }

/-- Wire response of the PlanResourceChange RPC. -/
structure WirePlanResponse where
  diagnostics : List WireDiagnostic
  plannedState : Option WireDynamicValue
  requiresReplace : List (Option WireAttributePath)
  plannedPrivate : Bytes

/-- Stage of Plan from the RPC call onward: a transport failure returns only
the RPC diagnostic; otherwise the remote diagnostics are decoded, the planned
state (when present) is decoded against the bound schema, and the
requires-replace wire paths are decoded in order. -/
def planRpcStage (codec : CtyCodec) (rpc : Except GoError WirePlanResponse)
    (content : Block) (diags : Diagnostics) (trace : List PlanInteraction) :
    ManagedResourcePlanResponse × Diagnostics × List PlanInteraction :=
  match rpc with
  | .error err =>
    (emptyPlanResponse, diags ++ RPCErrorDiagnostics (some err), trace ++ [.rpcCall])
  | .ok resp =>
    let diags := diags ++ decodeDiagnostics resp.diagnostics
    let (plannedState, diags) :=
      match resp.plannedState with
      | some raw =>
        let (v, moreDiags) := decodeDynamicValueWire codec raw content
        (some v, diags ++ moreDiags)
      | none => (none, diags)
    ({ plannedState := plannedState,
       requiresReplace := resp.requiresReplace.map decodeAttributePath,
       opaquePrivate := resp.plannedPrivate },
     diags, trace ++ [.rpcCall])

/-- Plan of the per-type managed resource client (part_002): prior state,
proposed new state and config are encoded in that order, each encode failure
short-circuiting the rest; the provider-meta value is encoded only when it is
non-null and a provider-meta schema exists; then the RPC stage runs. -/
def PlanRT (codec : CtyCodec) (rpc : Except GoError WirePlanResponse)
    (rt : ManagedResourceTypeClient) (req : ManagedResourcePlanRequest) :
    ManagedResourcePlanResponse × Diagnostics × List PlanInteraction :=
  let (_, m1) := encodeDynamicValueWire codec req.priorState rt.schema.content
  if m1.hasErrors then (emptyPlanResponse, m1, [.encodePrior])
  else
    let (_, m2) := encodeDynamicValueWire codec req.proposedNewState rt.schema.content
    let diags2 := m1 ++ m2
    if m2.hasErrors then (emptyPlanResponse, diags2, [.encodePrior, .encodeProposed])
    else
      let (_, m3) := encodeDynamicValueWire codec req.config rt.schema.content
      let diags3 := diags2 ++ m3
      if m3.hasErrors then
        (emptyPlanResponse, diags3, [.encodePrior, .encodeProposed, .encodeConfig])
      else
        match rt.providerMetaSchema with
        | some metaSchema =>
          if !req.providerMeta.isNull then
            let (_, m4) := encodeDynamicValueWire codec req.providerMeta metaSchema
            let diags4 := diags3 ++ m4
            if m4.hasErrors then
              (emptyPlanResponse, diags4,
               [.encodePrior, .encodeProposed, .encodeConfig, .encodeProviderMeta])
            else
              planRpcStage codec rpc rt.schema.content diags4
                [.encodePrior, .encodeProposed, .encodeConfig, .encodeProviderMeta]
          else
            planRpcStage codec rpc rt.schema.content diags3
              [.encodePrior, .encodeProposed, .encodeConfig]
        | none =>
          planRpcStage codec rpc rt.schema.content diags3
            [.encodePrior, .encodeProposed, .encodeConfig]

/-- C6: a Plan call whose prior-state value fails to encode against the bound
schema attempts no RPC and reaches neither the proposed-state nor the config
encode step (the interaction trace is exactly the prior encode attempt), and
its returned diagnostics are exactly the one encode-failure diagnostic. -/
theorem c6_plan_prior_encode_short_circuit (codec : CtyCodec)
    (rpc : Except GoError WirePlanResponse) (rt : ManagedResourceTypeClient)
    (req : ManagedResourcePlanRequest) (err : GoError)
    (h : codec.msgpackMarshal req.priorState (codec.impliedType rt.schema.content) =
      .error err) :
    PlanRT codec rpc rt req =
      (emptyPlanResponse,
       ErrorDiagnostics "Invalid object" "Value does not have the required type" err,
       [PlanInteraction.encodePrior]) ∧
    (PlanRT codec rpc rt req).2.1.length = 1 := by
  have henc : encodeDynamicValueWire codec req.priorState rt.schema.content =
      (none, ErrorDiagnostics "Invalid object" "Value does not have the required type" err) := by
    simp [encodeDynamicValueWire, EncodeDynamicValue, h, Diagnostics.hasErrors,
      ErrorDiagnostics]
  have hmain : PlanRT codec rpc rt req =
      (emptyPlanResponse,
       ErrorDiagnostics "Invalid object" "Value does not have the required type" err,
       [PlanInteraction.encodePrior]) := by
    rw [PlanRT, henc]
    simp [Diagnostics.hasErrors, ErrorDiagnostics]
  refine ⟨hmain, ?_⟩
  rw [hmain]
  rfl

/-- C6 witness: the prior-encode short circuit evaluated on a concrete client
and request with a codec whose marshalling fails. -/
theorem c6_plan_prior_encode_short_circuit_witness :
    failingMarshalCodec.msgpackMarshal CtyValue.dynamicVal
        (failingMarshalCodec.impliedType emptyBlock) =
      .error ⟨"attribute value does not conform"⟩ ∧
    PlanRT failingMarshalCodec (Except.ok ⟨[], none, [], []⟩)
        ⟨"examplething", ⟨0, emptyBlock⟩, none⟩
        ⟨CtyValue.dynamicVal, CtyValue.dynamicVal, CtyValue.dynamicVal, CtyValue.nullVal, []⟩ =
      (emptyPlanResponse,
       ErrorDiagnostics "Invalid object" "Value does not have the required type"
         ⟨"attribute value does not conform"⟩,
       [PlanInteraction.encodePrior]) := by
  refine ⟨rfl, ?_⟩
  exact (c6_plan_prior_encode_short_circuit failingMarshalCodec (Except.ok ⟨[], none, [], []⟩)
    ⟨"examplething", ⟨0, emptyBlock⟩, none⟩
    ⟨CtyValue.dynamicVal, CtyValue.dynamicVal, CtyValue.dynamicVal, CtyValue.nullVal, []⟩
    ⟨"attribute value does not conform"⟩ rfl).1

/-- One imported resource in the wire response of ImportResourceState. -/
structure WireImportedResource where
  typeName : String
  state : WireDynamicValue
  opaquePrivate : Bytes
  deriving DecidableEq, Repr

/-- Wire response of the ImportResourceState RPC. -/
structure WireImportResponse where
  importedResources : List WireImportedResource
  diagnostics : List WireDiagnostic
  deriving DecidableEq, Repr

/-- One decoded imported resource, mirroring common.ImportedResource. -/
structure ImportedResource where
  typeName : String
  state : CtyValue
  opaquePrivate : Bytes
  deriving DecidableEq, Repr

/-- Result of an import operation, mirroring the import response records. -/
structure ImportResponse where
  importedResources : List ImportedResource
  deriving DecidableEq, Repr

/-- Diagnostic appended by the per-type Import when the returned type name
differs from the requested one. -/
def importTypeMismatchDiagnostic (expected actual : String) : Diagnostic :=
  { severity := .error, summary := "Import type mismatch",
    detail := "Expected resource type " ++ goQuote expected ++ ", but provider returned " ++
      goQuote actual ++ " during import" }

/-- Diagnostic appended by the provider-level import when the returned type
name is absent from the loaded schema. -/
def invalidImportedTypeDiagnostic (actual : String) : Diagnostic :=
  { severity := .error, summary := "Invalid imported resource type",
    detail := "The provider returned an invalid resource type " ++ goQuote actual ++
      " during import." }

/-- Diagnostics returned by requireConfigured on an unconfigured provider. -/
def unconfiguredDiagnostics : Diagnostics :=
  [{ severity := .error, summary := "Provider unconfigured",
     detail := "This operation requires a configured provider, but the provider isn't configured yet." }]

/-- Diagnostics returned by validateResourceType for an unsupported type. -/
def invalidResourceTypeDiagnostics (typeName : String) : Diagnostics :=
  [{ severity := .error, summary := "Invalid resource type",
     detail := "The provider does not support resource type " ++ goQuote typeName ++ "." }]

/-- Loop body of the per-type Import (part_002): a resource whose type name
differs from the requested type is dropped with the type-mismatch diagnostic
without consulting any schema; otherwise its state is decoded against the
bound schema, the decode diagnostics are appended, and the resource is kept
only when they contain no error. -/
def importStepRT (codec : CtyCodec) (typeName : String) (content : Block)
    (imported : WireImportedResource) (restR : List ImportedResource × Diagnostics) :
    List ImportedResource × Diagnostics :=
  if imported.typeName ≠ typeName then
    (restR.1, importTypeMismatchDiagnostic typeName imported.typeName :: restR.2)
  else
    let (state, moreDiags) := decodeDynamicValueWire codec imported.state content
    if moreDiags.hasErrors then (restR.1, moreDiags ++ restR.2)
    else
      ({ typeName := imported.typeName, state := state,
         opaquePrivate := imported.opaquePrivate } :: restR.1,
       moreDiags ++ restR.2)

/-- Per-type import loop over the returned resources, in order. -/
def importLoopRT (codec : CtyCodec) (typeName : String) (content : Block) :
    List WireImportedResource → List ImportedResource × Diagnostics
  | [] => ([], [])
  | imported :: rest =>
    importStepRT codec typeName content imported (importLoopRT codec typeName content rest)

/-- Loop body of the provider-level ImportResourceState (part_003 and the
protocol6 provider): a resource whose type name differs from the requested
type is decoded against the schema of the named type when that type exists in
the loaded schema, and otherwise dropped with the invalid-imported-type
diagnostic; decode diagnostics are appended and the resource kept only when
they contain no error. -/
def importStepProvider (codec : CtyCodec) (schema : Schema) (reqTypeName : String)
    (reqContent : Block) (imported : WireImportedResource)
    (restR : List ImportedResource × Diagnostics) : List ImportedResource × Diagnostics :=
  if imported.typeName ≠ reqTypeName then
    match schema.managedResourceTypes imported.typeName with
    | some altSchema =>
      let (state, moreDiags) := decodeDynamicValueWire codec imported.state altSchema.content
      if moreDiags.hasErrors then (restR.1, moreDiags ++ restR.2)
      else
        ({ typeName := imported.typeName, state := state,
           opaquePrivate := imported.opaquePrivate } :: restR.1,
         moreDiags ++ restR.2)
    | none =>
      (restR.1, invalidImportedTypeDiagnostic imported.typeName :: restR.2)
  else
    let (state, moreDiags) := decodeDynamicValueWire codec imported.state reqContent
    if moreDiags.hasErrors then (restR.1, moreDiags ++ restR.2)
    else
      ({ typeName := imported.typeName, state := state,
         opaquePrivate := imported.opaquePrivate } :: restR.1,
       moreDiags ++ restR.2)

/-- Provider-level import loop over the returned resources, in order. -/
def importLoopProvider (codec : CtyCodec) (schema : Schema) (reqTypeName : String)
    (reqContent : Block) : List WireImportedResource → List ImportedResource × Diagnostics
  | [] => ([], [])
  | imported :: rest =>
    importStepProvider codec schema reqTypeName reqContent imported
      (importLoopProvider codec schema reqTypeName reqContent rest)

/-- Import of the per-type managed resource client (part_002): one RPC keyed
by the external id; a transport failure returns only the RPC diagnostic;
otherwise the remote diagnostics are decoded and the returned resources run
through the per-type import loop. -/
def ImportRT (codec : CtyCodec) (rpc : Except GoError WireImportResponse)
    (rt : ManagedResourceTypeClient) (_id : String) : ImportResponse × Diagnostics :=
  match rpc with
  | .error err => (⟨[]⟩, RPCErrorDiagnostics (some err))
  | .ok resp =>
    let diags := decodeDiagnostics resp.diagnostics
    let (resources, loopDiags) :=
      importLoopRT codec rt.typeName rt.schema.content resp.importedResources
    (⟨resources⟩, diags ++ loopDiags)

/-- ImportResourceState of the provider-level implementations: requires a
configured provider and a known requested type, then issues the RPC, decodes
the remote diagnostics and runs the provider-level import loop. -/
def ImportResourceStateProvider (codec : CtyCodec) (rpc : Except GoError WireImportResponse)
    (st : ProviderState) (reqTypeName : String) (_id : String) :
    ImportResponse × Diagnostics :=
  if !st.configured then (⟨[]⟩, unconfiguredDiagnostics)
  else
    match st.schema.managedResourceTypes reqTypeName with
    | none => (⟨[]⟩, invalidResourceTypeDiagnostics reqTypeName)
    | some schema =>
      match rpc with
      | .error err => (⟨[]⟩, RPCErrorDiagnostics (some err))
      | .ok resp =>
        let diags := decodeDiagnostics resp.diagnostics
        let (resources, loopDiags) :=
          importLoopProvider codec st.schema reqTypeName schema.content resp.importedResources
        (⟨resources⟩, diags ++ loopDiags)

/-- One per-type import step only prepends to the accumulated results and
diagnostics, so it distributes over appending further results. -/
theorem importStepRT_append (codec : CtyCodec) (typeName : String) (content : Block)
    (imported : WireImportedResource) (a c : List ImportedResource) (b d : Diagnostics) :
    importStepRT codec typeName content imported (a ++ c, b ++ d) =
      ((importStepRT codec typeName content imported (a, b)).1 ++ c,
       (importStepRT codec typeName content imported (a, b)).2 ++ d) := by
  rcases hdv : decodeDynamicValueWire codec imported.state content with ⟨v, dg⟩
  by_cases hty : imported.typeName = typeName
  · by_cases hde : Diagnostics.hasErrors dg = true
    · simp [importStepRT, hty, hdv, hde, List.append_assoc]
    · simp [importStepRT, hty, hdv, hde, List.append_assoc]
  · simp [importStepRT, hty, List.append_assoc]

/-- The per-type import loop processes each resource independently: the loop
over a concatenation is the concatenation of the loops, componentwise. -/
theorem importLoopRT_append (codec : CtyCodec) (typeName : String) (content : Block)
    (l1 l2 : List WireImportedResource) :
    importLoopRT codec typeName content (l1 ++ l2) =
      ((importLoopRT codec typeName content l1).1 ++ (importLoopRT codec typeName content l2).1,
       (importLoopRT codec typeName content l1).2 ++
         (importLoopRT codec typeName content l2).2) := by
  induction l1 with
  | nil => simp [importLoopRT]
  | cons imported rest ih =>
    have hstep : importLoopRT codec typeName content (imported :: (rest ++ l2)) =
        importStepRT codec typeName content imported
          (importLoopRT codec typeName content (rest ++ l2)) := rfl
    rw [List.cons_append, hstep, ih, importStepRT_append]
    rfl

/-- One provider-level import step only prepends to the accumulated results
and diagnostics, so it distributes over appending further results. -/
theorem importStepProvider_append (codec : CtyCodec) (schema : Schema) (reqTypeName : String)
    (reqContent : Block) (imported : WireImportedResource) (a c : List ImportedResource)
    (b d : Diagnostics) :
    importStepProvider codec schema reqTypeName reqContent imported (a ++ c, b ++ d) =
      ((importStepProvider codec schema reqTypeName reqContent imported (a, b)).1 ++ c,
       (importStepProvider codec schema reqTypeName reqContent imported (a, b)).2 ++ d) := by
  by_cases hty : imported.typeName = reqTypeName
  · rcases hdv : decodeDynamicValueWire codec imported.state reqContent with ⟨v, dg⟩
    by_cases hde : Diagnostics.hasErrors dg = true
    · simp [importStepProvider, hty, hdv, hde, List.append_assoc]
    · simp [importStepProvider, hty, hdv, hde, List.append_assoc]
  · cases halt : schema.managedResourceTypes imported.typeName with
    | none => simp [importStepProvider, hty, halt, List.append_assoc]
    | some altSchema =>
      rcases hdv : decodeDynamicValueWire codec imported.state altSchema.content with ⟨v, dg⟩
      by_cases hde : Diagnostics.hasErrors dg = true
      · simp [importStepProvider, hty, halt, hdv, hde, List.append_assoc]
      · simp [importStepProvider, hty, halt, hdv, hde, List.append_assoc]

/-- The provider-level import loop processes each resource independently: the
loop over a concatenation is the concatenation of the loops, componentwise. -/
theorem importLoopProvider_append (codec : CtyCodec) (schema : Schema) (reqTypeName : String)
    (reqContent : Block) (l1 l2 : List WireImportedResource) :
    importLoopProvider codec schema reqTypeName reqContent (l1 ++ l2) =
      ((importLoopProvider codec schema reqTypeName reqContent l1).1 ++
         (importLoopProvider codec schema reqTypeName reqContent l2).1,
       (importLoopProvider codec schema reqTypeName reqContent l1).2 ++
         (importLoopProvider codec schema reqTypeName reqContent l2).2) := by
  induction l1 with
  | nil => simp [importLoopProvider]
  | cons imported rest ih =>
    have hstep : importLoopProvider codec schema reqTypeName reqContent (imported :: (rest ++ l2)) =
        importStepProvider codec schema reqTypeName reqContent imported
          (importLoopProvider codec schema reqTypeName reqContent (rest ++ l2)) := rfl
    rw [List.cons_append, hstep, ih, importStepProvider_append]
    rfl

/-- Step behaviour on a matching type name whose state fails to decode: the
resource is omitted and its decode diagnostics are appended. -/
theorem importStepRT_matched_fail (codec : CtyCodec) (tn : String) (content : Block)
    (imported : WireImportedResource) (restR : List ImportedResource × Diagnostics)
    (hty : imported.typeName = tn)
    (hde : Diagnostics.hasErrors (decodeDynamicValueWire codec imported.state content).2 = true) :
    importStepRT codec tn content imported restR =
      (restR.1, (decodeDynamicValueWire codec imported.state content).2 ++ restR.2) := by
  rcases hdv : decodeDynamicValueWire codec imported.state content with ⟨v, dg⟩
  rw [hdv] at hde
  simp only at hde
  simp [importStepRT, hty, hdv, hde]

/-- Step behaviour on a matching type name whose state decodes cleanly: the
resource is kept and its decode diagnostics are appended. -/
theorem importStepRT_matched_ok (codec : CtyCodec) (tn : String) (content : Block)
    (imported : WireImportedResource) (restR : List ImportedResource × Diagnostics)
    (hty : imported.typeName = tn)
    (hde : Diagnostics.hasErrors (decodeDynamicValueWire codec imported.state content).2 = false) :
    importStepRT codec tn content imported restR =
      ({ typeName := imported.typeName,
         state := (decodeDynamicValueWire codec imported.state content).1,
         opaquePrivate := imported.opaquePrivate } :: restR.1,
       (decodeDynamicValueWire codec imported.state content).2 ++ restR.2) := by
  rcases hdv : decodeDynamicValueWire codec imported.state content with ⟨v, dg⟩
  rw [hdv] at hde
  simp only at hde
  simp [importStepRT, hty, hdv, hde]

/-- Per-type step behaviour on a mismatched type name: the resource is always
dropped with the type-mismatch diagnostic, whatever the loaded schema holds. -/
theorem importStepRT_mismatch (codec : CtyCodec) (tn : String) (content : Block)
    (imported : WireImportedResource) (restR : List ImportedResource × Diagnostics)
    (hty : imported.typeName ≠ tn) :
    importStepRT codec tn content imported restR =
      (restR.1, importTypeMismatchDiagnostic tn imported.typeName :: restR.2) := by
  simp [importStepRT, hty]

/-- Provider-level step behaviour on a matching type name whose state fails to
decode against the requested schema. -/
theorem importStepProvider_matched_fail (codec : CtyCodec) (schema : Schema)
    (reqTypeName : String) (reqContent : Block) (imported : WireImportedResource)
    (restR : List ImportedResource × Diagnostics) (hty : imported.typeName = reqTypeName)
    (hde : Diagnostics.hasErrors
      (decodeDynamicValueWire codec imported.state reqContent).2 = true) :
    importStepProvider codec schema reqTypeName reqContent imported restR =
      (restR.1, (decodeDynamicValueWire codec imported.state reqContent).2 ++ restR.2) := by
  rcases hdv : decodeDynamicValueWire codec imported.state reqContent with ⟨v, dg⟩
  rw [hdv] at hde
  simp only at hde
  simp [importStepProvider, hty, hdv, hde]

/-- Provider-level step behaviour on a matching type name whose state decodes
cleanly against the requested schema. -/
theorem importStepProvider_matched_ok (codec : CtyCodec) (schema : Schema)
    (reqTypeName : String) (reqContent : Block) (imported : WireImportedResource)
    (restR : List ImportedResource × Diagnostics) (hty : imported.typeName = reqTypeName)
    (hde : Diagnostics.hasErrors
      (decodeDynamicValueWire codec imported.state reqContent).2 = false) :
    importStepProvider codec schema reqTypeName reqContent imported restR =
      ({ typeName := imported.typeName,
         state := (decodeDynamicValueWire codec imported.state reqContent).1,
         opaquePrivate := imported.opaquePrivate } :: restR.1,
       (decodeDynamicValueWire codec imported.state reqContent).2 ++ restR.2) := by
  rcases hdv : decodeDynamicValueWire codec imported.state reqContent with ⟨v, dg⟩
  rw [hdv] at hde
  simp only at hde
  simp [importStepProvider, hty, hdv, hde]

/-- Provider-level step behaviour on a mismatched type name that exists in the
loaded schema and whose state fails to decode against that named schema. -/
theorem importStepProvider_alt_fail (codec : CtyCodec) (schema : Schema)
    (reqTypeName : String) (reqContent : Block) (imported : WireImportedResource)
    (restR : List ImportedResource × Diagnostics)
    (altSchema : ManagedResourceTypeSchema) (hty : imported.typeName ≠ reqTypeName)
    (halt : schema.managedResourceTypes imported.typeName = some altSchema)
    (hde : Diagnostics.hasErrors
      (decodeDynamicValueWire codec imported.state altSchema.content).2 = true) :
    importStepProvider codec schema reqTypeName reqContent imported restR =
      (restR.1, (decodeDynamicValueWire codec imported.state altSchema.content).2 ++ restR.2) := by
  rcases hdv : decodeDynamicValueWire codec imported.state altSchema.content with ⟨v, dg⟩
  rw [hdv] at hde
  simp only at hde
  simp [importStepProvider, hty, halt, hdv, hde]

/-- Provider-level step behaviour on a mismatched type name that exists in the
loaded schema and whose state decodes cleanly against that named schema. -/
theorem importStepProvider_alt_ok (codec : CtyCodec) (schema : Schema)
    (reqTypeName : String) (reqContent : Block) (imported : WireImportedResource)
    (restR : List ImportedResource × Diagnostics)
    (altSchema : ManagedResourceTypeSchema) (hty : imported.typeName ≠ reqTypeName)
    (halt : schema.managedResourceTypes imported.typeName = some altSchema)
    (hde : Diagnostics.hasErrors
      (decodeDynamicValueWire codec imported.state altSchema.content).2 = false) :
    importStepProvider codec schema reqTypeName reqContent imported restR =
      ({ typeName := imported.typeName,
         state := (decodeDynamicValueWire codec imported.state altSchema.content).1,
         opaquePrivate := imported.opaquePrivate } :: restR.1,
       (decodeDynamicValueWire codec imported.state altSchema.content).2 ++ restR.2) := by
  rcases hdv : decodeDynamicValueWire codec imported.state altSchema.content with ⟨v, dg⟩
  rw [hdv] at hde
  simp only at hde
  simp [importStepProvider, hty, halt, hdv, hde]

/-- Provider-level step behaviour on a mismatched type name that is absent
from the loaded schema: the resource is dropped with the invalid-imported-type
diagnostic. -/
theorem importStepProvider_unknown_type (codec : CtyCodec) (schema : Schema)
    (reqTypeName : String) (reqContent : Block) (imported : WireImportedResource)
    (restR : List ImportedResource × Diagnostics) (hty : imported.typeName ≠ reqTypeName)
    (halt : schema.managedResourceTypes imported.typeName = none) :
    importStepProvider codec schema reqTypeName reqContent imported restR =
      (restR.1, invalidImportedTypeDiagnostic imported.typeName :: restR.2) := by
  simp [importStepProvider, hty, halt]

/-- Per-type loop over a list with a distinguished middle element. -/
theorem importLoopRT_middle (codec : CtyCodec) (tn : String) (content : Block)
    (l1 : List WireImportedResource) (imported : WireImportedResource)
    (l2 : List WireImportedResource) :
    importLoopRT codec tn content (l1 ++ imported :: l2) =
      ((importLoopRT codec tn content l1).1 ++
         (importStepRT codec tn content imported (importLoopRT codec tn content l2)).1,
       (importLoopRT codec tn content l1).2 ++
         (importStepRT codec tn content imported (importLoopRT codec tn content l2)).2) := by
  rw [importLoopRT_append]
  rfl

/-- Provider-level loop over a list with a distinguished middle element. -/
theorem importLoopProvider_middle (codec : CtyCodec) (schema : Schema) (reqTypeName : String)
    (reqContent : Block) (l1 : List WireImportedResource) (imported : WireImportedResource)
    (l2 : List WireImportedResource) :
    importLoopProvider codec schema reqTypeName reqContent (l1 ++ imported :: l2) =
      ((importLoopProvider codec schema reqTypeName reqContent l1).1 ++
         (importStepProvider codec schema reqTypeName reqContent imported
           (importLoopProvider codec schema reqTypeName reqContent l2)).1,
       (importLoopProvider codec schema reqTypeName reqContent l1).2 ++
         (importStepProvider codec schema reqTypeName reqContent imported
           (importLoopProvider codec schema reqTypeName reqContent l2)).2) := by
  rw [importLoopProvider_append]
  rfl

/-- C10: both import operations run the per-resource loop after the decoded
remote diagnostics; and in both loops a returned resource whose state bytes
fail to decode against the applicable schema is omitted from the returned
imported-resources list while its decode error diagnostics are still appended
in place, whereas a resource whose state decodes cleanly is included, and the
resources before and after it are processed the same either way. -/
theorem c10_import_decode_failure_isolated (codec : CtyCodec) (st : ProviderState)
    (schema : Schema) (tn reqTypeName anId : String) (content reqContent : Block)
    (imported : WireImportedResource) (l1 l2 : List WireImportedResource)
    (resp : WireImportResponse) (rt : ManagedResourceTypeClient)
    (mrts : ManagedResourceTypeSchema) :
    (ImportRT codec (.ok resp) rt anId =
      (⟨(importLoopRT codec rt.typeName rt.schema.content resp.importedResources).1⟩,
       decodeDiagnostics resp.diagnostics ++
         (importLoopRT codec rt.typeName rt.schema.content resp.importedResources).2)) ∧
    (st.configured = true → st.schema.managedResourceTypes reqTypeName = some mrts →
      ImportResourceStateProvider codec (.ok resp) st reqTypeName anId =
        (⟨(importLoopProvider codec st.schema reqTypeName mrts.content
            resp.importedResources).1⟩,
         decodeDiagnostics resp.diagnostics ++
           (importLoopProvider codec st.schema reqTypeName mrts.content
             resp.importedResources).2)) ∧
    (imported.typeName = tn →
      Diagnostics.hasErrors (decodeDynamicValueWire codec imported.state content).2 = true →
      importLoopRT codec tn content (l1 ++ imported :: l2) =
        ((importLoopRT codec tn content l1).1 ++ (importLoopRT codec tn content l2).1,
         (importLoopRT codec tn content l1).2 ++
           ((decodeDynamicValueWire codec imported.state content).2 ++
             (importLoopRT codec tn content l2).2))) ∧
    (imported.typeName = tn →
      Diagnostics.hasErrors (decodeDynamicValueWire codec imported.state content).2 = false →
      importLoopRT codec tn content (l1 ++ imported :: l2) =
        ((importLoopRT codec tn content l1).1 ++
           ({ typeName := imported.typeName,
              state := (decodeDynamicValueWire codec imported.state content).1,
              opaquePrivate := imported.opaquePrivate } ::
              (importLoopRT codec tn content l2).1),
         (importLoopRT codec tn content l1).2 ++
           ((decodeDynamicValueWire codec imported.state content).2 ++
             (importLoopRT codec tn content l2).2))) ∧
    (imported.typeName = reqTypeName →
      Diagnostics.hasErrors (decodeDynamicValueWire codec imported.state reqContent).2 = true →
      importLoopProvider codec schema reqTypeName reqContent (l1 ++ imported :: l2) =
        ((importLoopProvider codec schema reqTypeName reqContent l1).1 ++
           (importLoopProvider codec schema reqTypeName reqContent l2).1,
         (importLoopProvider codec schema reqTypeName reqContent l1).2 ++
           ((decodeDynamicValueWire codec imported.state reqContent).2 ++
             (importLoopProvider codec schema reqTypeName reqContent l2).2))) ∧
    (imported.typeName = reqTypeName →
      Diagnostics.hasErrors (decodeDynamicValueWire codec imported.state reqContent).2 = false →
      importLoopProvider codec schema reqTypeName reqContent (l1 ++ imported :: l2) =
        ((importLoopProvider codec schema reqTypeName reqContent l1).1 ++
           ({ typeName := imported.typeName,
              state := (decodeDynamicValueWire codec imported.state reqContent).1,
              opaquePrivate := imported.opaquePrivate } ::
              (importLoopProvider codec schema reqTypeName reqContent l2).1),
         (importLoopProvider codec schema reqTypeName reqContent l1).2 ++
           ((decodeDynamicValueWire codec imported.state reqContent).2 ++
             (importLoopProvider codec schema reqTypeName reqContent l2).2))) := by
  refine ⟨rfl, ?_, ?_, ?_, ?_, ?_⟩
  · intro h1 h2
    simp [ImportResourceStateProvider, h1, h2]
  · intro hty hde
    rw [importLoopRT_middle,
      importStepRT_matched_fail codec tn content imported
        (importLoopRT codec tn content l2) hty hde]
  · intro hty hde
    rw [importLoopRT_middle,
      importStepRT_matched_ok codec tn content imported
        (importLoopRT codec tn content l2) hty hde]
  · intro hty hde
    rw [importLoopProvider_middle,
      importStepProvider_matched_fail codec schema reqTypeName reqContent imported
        (importLoopProvider codec schema reqTypeName reqContent l2) hty hde]
  · intro hty hde
    rw [importLoopProvider_middle,
      importStepProvider_matched_ok codec schema reqTypeName reqContent imported
        (importLoopProvider codec schema reqTypeName reqContent l2) hty hde]

/-- Codec used in the import evaluations: msgpack byte 1 decodes to a
concrete value and any other msgpack payload fails to decode. -/
def importTestCodec : CtyCodec where
  impliedType := fun _ => CtyType.named 0
  msgpackMarshal := fun _ _ => Except.ok [0]
  jsonUnmarshal := fun _ _ => Except.error ⟨"bad json"⟩
  msgpackUnmarshal := fun bytes _ =>
    match bytes with
    | [1] => Except.ok (CtyValue.val 10)
    | _ => Except.error ⟨"bad msgpack"⟩

/-- Wire imported resource of the requested type whose state decodes. -/
def goodWireImport : WireImportedResource := ⟨"examplething", ⟨[], [1]⟩, [9]⟩

/-- Wire imported resource of the requested type whose state fails to
decode. -/
def badWireImport : WireImportedResource := ⟨"examplething", ⟨[], [2]⟩, [8]⟩

/-- C10 witness: a failing middle resource followed by a decodable one, in the
per-type loop; the failing one is omitted with its diagnostics kept, and the
decodable one from the same list is kept either way. -/
theorem c10_import_decode_failure_isolated_witness :
    (badWireImport.typeName = "examplething" ∧
      Diagnostics.hasErrors
        (decodeDynamicValueWire importTestCodec badWireImport.state emptyBlock).2 = true ∧
      importLoopRT importTestCodec "examplething" emptyBlock
          ([] ++ badWireImport :: [goodWireImport]) =
        ((importLoopRT importTestCodec "examplething" emptyBlock []).1 ++
           (importLoopRT importTestCodec "examplething" emptyBlock [goodWireImport]).1,
         (importLoopRT importTestCodec "examplething" emptyBlock []).2 ++
           ((decodeDynamicValueWire importTestCodec badWireImport.state emptyBlock).2 ++
             (importLoopRT importTestCodec "examplething" emptyBlock [goodWireImport]).2))) ∧
    (goodWireImport.typeName = "examplething" ∧
      Diagnostics.hasErrors
        (decodeDynamicValueWire importTestCodec goodWireImport.state emptyBlock).2 = false ∧
      importLoopRT importTestCodec "examplething" emptyBlock
          ([badWireImport] ++ goodWireImport :: []) =
        ((importLoopRT importTestCodec "examplething" emptyBlock [badWireImport]).1 ++
           ({ typeName := goodWireImport.typeName,
              state := (decodeDynamicValueWire importTestCodec goodWireImport.state
                emptyBlock).1,
              opaquePrivate := goodWireImport.opaquePrivate } ::
              (importLoopRT importTestCodec "examplething" emptyBlock []).1),
         (importLoopRT importTestCodec "examplething" emptyBlock [badWireImport]).2 ++
           ((decodeDynamicValueWire importTestCodec goodWireImport.state emptyBlock).2 ++
             (importLoopRT importTestCodec "examplething" emptyBlock []).2))) := by
  constructor
  · refine ⟨rfl, rfl, ?_⟩
    exact (c10_import_decode_failure_isolated importTestCodec unconfiguredState emptySchema
      "examplething" "examplething" "someid" emptyBlock emptyBlock badWireImport []
      [goodWireImport] ⟨[], []⟩ ⟨"examplething", ⟨0, emptyBlock⟩, none⟩
      ⟨0, emptyBlock⟩).2.2.1 rfl rfl
  · refine ⟨rfl, rfl, ?_⟩
    exact (c10_import_decode_failure_isolated importTestCodec unconfiguredState emptySchema
      "examplething" "examplething" "someid" emptyBlock emptyBlock goodWireImport
      [badWireImport] [] ⟨[], []⟩ ⟨"examplething", ⟨0, emptyBlock⟩, none⟩
      ⟨0, emptyBlock⟩).2.2.2.1 rfl rfl

/-- Schema holding two managed resource types, examplething and otherthing. -/
def twoTypeSchema : Schema :=
  { providerConfig := emptyBlock, providerMeta := emptyBlock,
    managedResourceTypes := fun s =>
      if s = "examplething" then some ⟨0, emptyBlock⟩
      else if s = "otherthing" then some ⟨1, emptyBlock⟩ else none,
    dataResourceTypes := fun _ => none }

/-- C3 counterexample: the per-type Import drops a returned resource whose
type name differs from the requested type, with the import-type-mismatch
error diagnostic and no attempt to decode it, even though the named returned
type exists in the loaded schema and its state bytes are decodable; the claim
would require the resource to be decoded with the named type's schema and
returned. -/
theorem c3_counterexample :
    twoTypeSchema.managedResourceTypes "otherthing" = some ⟨1, emptyBlock⟩ ∧
    ImportRT importTestCodec (Except.ok ⟨[⟨"otherthing", ⟨[], [1]⟩, [9]⟩], []⟩)
        ⟨"examplething", ⟨0, emptyBlock⟩, none⟩ "someid" =
      (⟨[]⟩, [importTypeMismatchDiagnostic "examplething" "otherthing"]) := by
  constructor
  · simp [twoTypeSchema]
  · rfl

/-- C3 (amended): in the provider-level ImportResourceState implementations a
returned resource whose type name differs from the requested type is decoded
against the schema of the named returned type when that type exists in the
loaded schema (kept when the decode is clean, omitted with its decode
diagnostics otherwise), and when the named type does not exist only that one
resource is dropped with the invalid-imported-resource-type error diagnostic
while the other returned resources are still decoded and returned; the
per-type Import implementation instead drops every resource whose type name
differs from the requested type with an import-type-mismatch error
diagnostic, without consulting the loaded schema. -/
theorem c3_import_alternate_type_policy (codec : CtyCodec) (schema : Schema)
    (reqTypeName : String) (reqContent : Block) (imported : WireImportedResource)
    (l1 l2 : List WireImportedResource) (altSchema : ManagedResourceTypeSchema)
    (hty : imported.typeName ≠ reqTypeName) :
    (schema.managedResourceTypes imported.typeName = some altSchema →
      Diagnostics.hasErrors
        (decodeDynamicValueWire codec imported.state altSchema.content).2 = false →
      importLoopProvider codec schema reqTypeName reqContent (l1 ++ imported :: l2) =
        ((importLoopProvider codec schema reqTypeName reqContent l1).1 ++
           ({ typeName := imported.typeName,
              state := (decodeDynamicValueWire codec imported.state altSchema.content).1,
              opaquePrivate := imported.opaquePrivate } ::
              (importLoopProvider codec schema reqTypeName reqContent l2).1),
         (importLoopProvider codec schema reqTypeName reqContent l1).2 ++
           ((decodeDynamicValueWire codec imported.state altSchema.content).2 ++
             (importLoopProvider codec schema reqTypeName reqContent l2).2))) ∧
    (schema.managedResourceTypes imported.typeName = some altSchema →
      Diagnostics.hasErrors
        (decodeDynamicValueWire codec imported.state altSchema.content).2 = true →
      importLoopProvider codec schema reqTypeName reqContent (l1 ++ imported :: l2) =
        ((importLoopProvider codec schema reqTypeName reqContent l1).1 ++
           (importLoopProvider codec schema reqTypeName reqContent l2).1,
         (importLoopProvider codec schema reqTypeName reqContent l1).2 ++
           ((decodeDynamicValueWire codec imported.state altSchema.content).2 ++
             (importLoopProvider codec schema reqTypeName reqContent l2).2))) ∧
    (schema.managedResourceTypes imported.typeName = none →
      importLoopProvider codec schema reqTypeName reqContent (l1 ++ imported :: l2) =
        ((importLoopProvider codec schema reqTypeName reqContent l1).1 ++
           (importLoopProvider codec schema reqTypeName reqContent l2).1,
         (importLoopProvider codec schema reqTypeName reqContent l1).2 ++
           (invalidImportedTypeDiagnostic imported.typeName ::
             (importLoopProvider codec schema reqTypeName reqContent l2).2))) ∧
    (importLoopRT codec reqTypeName reqContent (l1 ++ imported :: l2) =
      ((importLoopRT codec reqTypeName reqContent l1).1 ++
         (importLoopRT codec reqTypeName reqContent l2).1,
       (importLoopRT codec reqTypeName reqContent l1).2 ++
         (importTypeMismatchDiagnostic reqTypeName imported.typeName ::
           (importLoopRT codec reqTypeName reqContent l2).2))) := by
  refine ⟨?_, ?_, ?_, ?_⟩
  · intro halt hde
    rw [importLoopProvider_middle,
      importStepProvider_alt_ok codec schema reqTypeName reqContent imported
        (importLoopProvider codec schema reqTypeName reqContent l2) altSchema hty halt hde]
  · intro halt hde
    rw [importLoopProvider_middle,
      importStepProvider_alt_fail codec schema reqTypeName reqContent imported
        (importLoopProvider codec schema reqTypeName reqContent l2) altSchema hty halt hde]
  · intro halt
    rw [importLoopProvider_middle,
      importStepProvider_unknown_type codec schema reqTypeName reqContent imported
        (importLoopProvider codec schema reqTypeName reqContent l2) hty halt]
  · rw [importLoopRT_middle,
      importStepRT_mismatch codec reqTypeName reqContent imported
        (importLoopRT codec reqTypeName reqContent l2) hty]

/-- C3 witness: over the two-type schema, a resource returned under the other
known type name is decoded and kept by the provider-level loop, a resource
under an unknown type name is dropped with the invalid-type diagnostic while
the neighbouring resource is still returned, and the per-type loop drops the
known-but-different type name with the mismatch diagnostic. -/
theorem c3_import_alternate_type_policy_witness :
    (("otherthing" : String) ≠ "examplething" ∧
      twoTypeSchema.managedResourceTypes "otherthing" = some ⟨1, emptyBlock⟩ ∧
      Diagnostics.hasErrors
        (decodeDynamicValueWire importTestCodec (⟨[], [1]⟩ : WireDynamicValue)
          emptyBlock).2 = false ∧
      importLoopProvider importTestCodec twoTypeSchema "examplething" emptyBlock
          ([] ++ (⟨"otherthing", ⟨[], [1]⟩, [9]⟩ : WireImportedResource) :: []) =
        ((importLoopProvider importTestCodec twoTypeSchema "examplething" emptyBlock []).1 ++
           ({ typeName := "otherthing",
              state := (decodeDynamicValueWire importTestCodec
                (⟨[], [1]⟩ : WireDynamicValue) emptyBlock).1,
              opaquePrivate := [9] } ::
              (importLoopProvider importTestCodec twoTypeSchema "examplething"
                emptyBlock []).1),
         (importLoopProvider importTestCodec twoTypeSchema "examplething" emptyBlock []).2 ++
           ((decodeDynamicValueWire importTestCodec (⟨[], [1]⟩ : WireDynamicValue)
              emptyBlock).2 ++
             (importLoopProvider importTestCodec twoTypeSchema "examplething"
               emptyBlock []).2))) ∧
    (("unknownthing" : String) ≠ "examplething" ∧
      twoTypeSchema.managedResourceTypes "unknownthing" = none ∧
      importLoopProvider importTestCodec twoTypeSchema "examplething" emptyBlock
          ([] ++ (⟨"unknownthing", ⟨[], [1]⟩, [7]⟩ : WireImportedResource) ::
            [goodWireImport]) =
        ((importLoopProvider importTestCodec twoTypeSchema "examplething" emptyBlock []).1 ++
           (importLoopProvider importTestCodec twoTypeSchema "examplething" emptyBlock
             [goodWireImport]).1,
         (importLoopProvider importTestCodec twoTypeSchema "examplething" emptyBlock []).2 ++
           (invalidImportedTypeDiagnostic "unknownthing" ::
             (importLoopProvider importTestCodec twoTypeSchema "examplething" emptyBlock
               [goodWireImport]).2))) ∧
    importLoopRT importTestCodec "examplething" emptyBlock
        ([] ++ (⟨"otherthing", ⟨[], [1]⟩, [9]⟩ : WireImportedResource) :: []) =
      ((importLoopRT importTestCodec "examplething" emptyBlock []).1 ++
         (importLoopRT importTestCodec "examplething" emptyBlock []).1,
       (importLoopRT importTestCodec "examplething" emptyBlock []).2 ++
         (importTypeMismatchDiagnostic "examplething" "otherthing" ::
           (importLoopRT importTestCodec "examplething" emptyBlock []).2)) := by
  refine ⟨⟨?_, ?_, rfl, ?_⟩, ⟨?_, ?_, ?_⟩, ?_⟩
  · decide
  · simp [twoTypeSchema]
  · exact (c3_import_alternate_type_policy importTestCodec twoTypeSchema "examplething"
      emptyBlock ⟨"otherthing", ⟨[], [1]⟩, [9]⟩ [] [] ⟨1, emptyBlock⟩
      (by decide)).1 (by simp [twoTypeSchema]) rfl
  · decide
  · simp [twoTypeSchema]
  · exact (c3_import_alternate_type_policy importTestCodec twoTypeSchema "examplething"
      emptyBlock ⟨"unknownthing", ⟨[], [1]⟩, [7]⟩ [] [goodWireImport] ⟨1, emptyBlock⟩
      (by decide)).2.2.1 (by simp [twoTypeSchema])
  · exact (c3_import_alternate_type_policy importTestCodec twoTypeSchema "examplething"
      emptyBlock ⟨"otherthing", ⟨[], [1]⟩, [9]⟩ [] [] ⟨1, emptyBlock⟩
      (by decide)).2.2.2
